import Mathlib

/-!
Verification of the POSCO steel-decarbonization optimization engine
(`src/model.py`, `src/sanity.py`, `src/run.py`, `src/scenarios.py`)
against its natural-language specification.

The Pyomo model built by `build_model` is embedded shallowly: a feasible
point is an assignment of the decision variables `Q` (production), `K`
(capacity), `Build` (integer build counts) and `ETSpos` (ETS positive
part), and `Feasible` is the conjunction of exactly the constraints the
code registers on the model, including the variable-domain constraints
(`NonNegativeReals` / `NonNegativeIntegers`).  Machine reals are modelled
as rationals.  Pyomo `Param` components constructed from a sparse
dictionary with no `default=` raise on access at an uninitialized index;
this is modelled by `Option`-valued intensity tables, with `none`
standing for the undefined-parameter fault.
-/

/-- Substring test on character lists: does the pattern occur starting at the
head of the text? (Mirrors one candidate position of Python's `in`.) -/
def charsMatchAt : List Char → List Char → Bool
  | [], _ => true
  | _ :: _, [] => false
  | a :: as, b :: bs => a = b && charsMatchAt as bs

/-- Substring occurrence on character lists, scanning all start positions. -/
def hasSubChars (pat : List Char) : List Char → Bool
  | [] => charsMatchAt pat []
  | c :: rest => charsMatchAt pat (c :: rest) || hasSubChars pat rest

/-- Python's `pat in s` substring test for strings. -/
def strContains (s pat : String) : Bool :=
  hasSubChars pat.data s.data

/-- Objective rescaling constant from `model.py`: `OBJ_SCALE = 1e-9`. -/
def OBJ_SCALE : ℚ := 1 / 1000000000

/-- Scenario knobs passed to `build_model`. -/
structure Knobs where
  discount_rate : ℚ
  utilization : ℚ
  ccus_capture_rate : ℚ

/-- The parameter bundle `params` consumed by `build_model`.  Technology
tables are total (the loader supplies them for every route); the eight
process-intensity tables are partial (`none` = no recorded entry for the
route, i.e. the key is absent from the per-kind dictionary), matching the
sparse dictionaries `params['intensity'].get(kind, {})`. -/
structure Params where
  routes : List String
  years : List Int
  t0 : Int
  unit_capacity : String → ℚ
  capex : String → ℚ
  fixed_opex : String → ℚ
  ef_scope1 : String → ℚ
  iron_ore_t : String → Option ℚ
  coking_coal_t : String → Option ℚ
  scrap_t : String → Option ℚ
  ng_GJ : String → Option ℚ
  electricity_MWh : String → Option ℚ
  h2_kg : String → Option ℚ
  fluxes_t : String → Option ℚ
  alloys_USD : String → Option ℚ
  demand : Int → ℚ
  carbon_price : Int → ℚ
  free_alloc : Int → ℚ
  scrap_supply : Int → ℚ
  price_fn : String → Int → ℚ
  hydrogen_case : String

/-- An assignment of the model's decision variables.  `Build` takes values
in ℕ, reflecting the `NonNegativeIntegers` domain. -/
structure Sol where
  Q : String → Int → ℚ
  K : String → Int → ℚ
  Build : String → Int → ℕ
  ETSpos : Int → ℚ

/-- Routes flagged as CCUS-equipped: `ccus_routes = [r for r in routes if 'CCUS' in r]`. -/
def ccusRoutes (routes : List String) : List String :=
  routes.filter (fun r => strContains r "CCUS")

/-- Net emission factor computed in `build_model`: capture applies exactly to
the routes in `ccus_routes`. -/
def ef_net (p : Params) (ccus_capture_rate : ℚ) (r : String) : ℚ :=
  if r ∈ ccusRoutes p.routes then p.ef_scope1 r * (1 - ccus_capture_rate)
  else p.ef_scope1 r

/-- The completed scrap-intensity table: `scrap_init = {route:
scrap_intensity.get(route, 0.0) for route in params['routes']}` — missing
routes default to zero.  This is the only intensity kind the code
totalizes. -/
def scrapInit (p : Params) (r : String) : ℚ :=
  (p.scrap_t r).getD 0

/-- The incumbent-route test in `capacity_rule`:
`'BF-BOF' in route and 'CCUS' not in route`. -/
def isIncumbent (r : String) : Bool :=
  strContains r "BF-BOF" && !(strContains r "CCUS")

/-- The hydrogen-route test in `build_model`: `'H2' in r or 'HyREX' in r`. -/
def isH2Route (r : String) : Bool :=
  strContains r "H2" || strContains r "HyREX"

/-- Python's `min(model.years)` over the ordered year set. -/
def minYear : List Int → Int
  | [] => 0
  | y :: ys => ys.foldl min y

/-- Pyomo's `model.years.prev(year)`: the element preceding `year` in the
set's order.  (Pyomo raises on the first element; that branch is never
reached in `capacity_rule`, which guards with `year == min(model.years)`;
the fallback value is irrelevant there.) -/
def prevYear : List Int → Int → Int
  | a :: b :: rest, y => if b = y then a else prevYear (b :: rest) y
  | _, y => y

/-- Constraint `demand_rule`: summed production equals demand, as an equality. -/
abbrev demand_rule (p : Params) (sol : Sol) (year : Int) : Prop :=
  (p.routes.map (fun r => sol.Q r year)).sum = p.demand year

/-- Constraint `capacity_rule`: first-year capacity is new builds, plus a
110%-of-demand endowment for the incumbent route class; later years
accumulate on the previous year's capacity. -/
abbrev capacity_rule (p : Params) (sol : Sol) (route : String) (year : Int) : Prop :=
  if year = minYear p.years then
    if isIncumbent route then
      sol.K route year =
        p.demand year * (11 / 10) + p.unit_capacity route * (sol.Build route year : ℚ)
    else
      sol.K route year = p.unit_capacity route * (sol.Build route year : ℚ)
  else
    sol.K route year =
      sol.K route (prevYear p.years year) + p.unit_capacity route * (sol.Build route year : ℚ)

/-- Constraint `utilization_rule`: `Q[r,y] <= utilization * K[r,y]`. -/
abbrev utilization_rule (k : Knobs) (sol : Sol) (route : String) (year : Int) : Prop :=
  sol.Q route year ≤ k.utilization * sol.K route year

/-- Constraint `scrap_limit_rule`: total scrap drawn may not exceed supply. -/
abbrev scrap_limit_rule (p : Params) (sol : Sol) (year : Int) : Prop :=
  (p.routes.map (fun r => scrapInit p r * sol.Q r year)).sum ≤ p.scrap_supply year

/-- Constraint `ets_balance_rule`:
`ETSpos[y] >= sum(ef_net[r] * Q[r,y]) - free_alloc[y]`. -/
abbrev ets_balance_rule (p : Params) (k : Knobs) (sol : Sol) (year : Int) : Prop :=
  (p.routes.map (fun r => ef_net p k.ccus_capture_rate r * sol.Q r year)).sum
      - p.free_alloc year ≤ sol.ETSpos year

/-- Constraint `h2_timing_rule`: hydrogen routes may not build before 2030. -/
abbrev h2_timing_rule (sol : Sol) (route : String) (year : Int) : Prop :=
  if isH2Route route && decide (year < 2030) then sol.Build route year = 0 else True

/-- A feasible point of the model built by `build_model`: the variable-domain
constraints together with every registered constraint. -/
structure Feasible (p : Params) (k : Knobs) (sol : Sol) : Prop where
  q_nonneg : ∀ r ∈ p.routes, ∀ y ∈ p.years, 0 ≤ sol.Q r y
  k_nonneg : ∀ r ∈ p.routes, ∀ y ∈ p.years, 0 ≤ sol.K r y
  etspos_nonneg : ∀ y ∈ p.years, 0 ≤ sol.ETSpos y
  demand_ok : ∀ y ∈ p.years, demand_rule p sol y
  capacity_ok : ∀ r ∈ p.routes, ∀ y ∈ p.years, capacity_rule p sol r y
  util_ok : ∀ r ∈ p.routes, ∀ y ∈ p.years, utilization_rule k sol r y
  scrap_ok : ∀ y ∈ p.years, scrap_limit_rule p sol y
  ets_ok : ∀ y ∈ p.years, ets_balance_rule p k sol y
  h2_ok : ∀ r ∈ p.routes, ∀ y ∈ p.years, h2_timing_rule sol r y

/-- Discount factor from `build_model`: `1 / (1+discount_rate)**(y - t0)`. -/
def discount_factor (k : Knobs) (t0 year : Int) : ℚ :=
  1 / (1 + k.discount_rate) ^ (year - t0)

/-- Hydrogen price-series key: `f"hydrogen_USD_per_kg_{hydrogen_case}"`. -/
def hydrogenKey (p : Params) : String :=
  "hydrogen_USD_per_kg_" ++ p.hydrogen_case

/-- Per-ton variable cost `usd_per_t` of `objective_rule`, with Pyomo's sparse
`Param` semantics: accessing any of the seven non-scrap intensity tables at a
route with no recorded entry raises, modelled as `none`.  The scrap intensity
goes through the totalized `scrapInit` table and cannot fault. -/
def usdPerT? (p : Params) (r : String) (year : Int) : Option ℚ :=
  match p.iron_ore_t r, p.coking_coal_t r, p.ng_GJ r, p.electricity_MWh r,
      p.h2_kg r, p.fluxes_t r, p.alloys_USD r with
  | some io, some ck, some ng, some el, some h2, some fx, some al =>
      some (io * p.price_fn "iron_ore_USD_per_t" year
        + ck * p.price_fn "coking_coal_USD_per_t" year
        + scrapInit p r * p.price_fn "scrap_USD_per_t" year
        + ng * p.price_fn "ng_USD_per_GJ" year
        + el * p.price_fn "electricity_USD_per_MWh" year
        + h2 * p.price_fn (hydrogenKey p) year
        + fx * p.price_fn "fluxes_USD_per_t" year
        + al)
  | _, _, _, _, _, _, _ => none

/-- The value of `usd_per_t` when every intensity table is defined at the
route (the only situation in which `build_model` returns at all, since the
objective expression is constructed eagerly). -/
def usdPerT (p : Params) (r : String) (year : Int) : ℚ :=
  (p.iron_ore_t r).getD 0 * p.price_fn "iron_ore_USD_per_t" year
    + (p.coking_coal_t r).getD 0 * p.price_fn "coking_coal_USD_per_t" year
    + scrapInit p r * p.price_fn "scrap_USD_per_t" year
    + (p.ng_GJ r).getD 0 * p.price_fn "ng_USD_per_GJ" year
    + (p.electricity_MWh r).getD 0 * p.price_fn "electricity_USD_per_MWh" year
    + (p.h2_kg r).getD 0 * p.price_fn (hydrogenKey p) year
    + (p.fluxes_t r).getD 0 * p.price_fn "fluxes_USD_per_t" year
    + (p.alloys_USD r).getD 0

/-- Yearly CAPEX term: `sum(Build * unit_capacity * 1e6 * capex)`. -/
def capexT (p : Params) (sol : Sol) (year : Int) : ℚ :=
  (p.routes.map
    (fun r => (sol.Build r year : ℚ) * p.unit_capacity r * 1000000 * p.capex r)).sum

/-- Yearly fixed O&M term: `sum(K * 1e6 * fixed_opex)`. -/
def fixomT (p : Params) (sol : Sol) (year : Int) : ℚ :=
  (p.routes.map (fun r => sol.K r year * 1000000 * p.fixed_opex r)).sum

/-- Yearly ETS cost term of the objective:
`carbon_price[y] * ETSpos[y] * 1e6`. -/
def etsT (p : Params) (sol : Sol) (year : Int) : ℚ :=
  p.carbon_price year * sol.ETSpos year * 1000000

/-- Sum of optional summands; `none` (a fault while building any summand)
poisons the whole sum, as a raised exception would. -/
def osum {α : Type} (l : List α) (f : α → Option ℚ) : Option ℚ :=
  l.foldr
    (fun a acc =>
      match f a, acc with
      | some v, some s => some (v + s)
      | _, _ => none)
    (some 0)

/-- Yearly variable-OPEX term with fault propagation:
`sum(Q * usd_per_t * 1e6)`. -/
def varT? (p : Params) (sol : Sol) (year : Int) : Option ℚ :=
  osum p.routes (fun r => (usdPerT? p r year).map (fun u => sol.Q r year * u * 1000000))

/-- Yearly variable-OPEX term under a successfully built model. -/
def varT (p : Params) (sol : Sol) (year : Int) : ℚ :=
  (p.routes.map (fun r => sol.Q r year * usdPerT p r year * 1000000)).sum

/-- One year's discounted cost contribution with fault propagation. -/
def yearCost? (p : Params) (k : Knobs) (sol : Sol) (year : Int) : Option ℚ :=
  (varT? p sol year).map
    (fun v =>
      discount_factor k p.t0 year * (capexT p sol year + fixomT p sol year + v + etsT p sol year))

/-- One year's discounted cost contribution under a successfully built model. -/
def yearCost (p : Params) (k : Knobs) (sol : Sol) (year : Int) : ℚ :=
  discount_factor k p.t0 year
    * (capexT p sol year + fixomT p sol year + varT p sol year + etsT p sol year)

/-- The objective expression of `objective_rule` evaluated at an assignment,
with fault propagation for undefined intensity parameters; the final value is
rescaled by `OBJ_SCALE`. -/
def objective? (p : Params) (k : Knobs) (sol : Sol) : Option ℚ :=
  (osum p.years (yearCost? p k sol)).map (fun t => t * OBJ_SCALE)

/-- The objective value under a successfully built model. -/
def objectiveVal (p : Params) (k : Knobs) (sol : Sol) : ℚ :=
  (p.years.map (yearCost p k sol)).sum * OBJ_SCALE

/-- An optimal solution: feasible, and of minimal objective value among all
feasible assignments of the mixed-integer model. -/
def Optimal (p : Params) (k : Knobs) (sol : Sol) : Prop :=
  Feasible p k sol ∧ ∀ sol', Feasible p k sol' → objectiveVal p k sol ≤ objectiveVal p k sol'

/-- All seven non-scrap intensity tables have an entry for every route: the
condition under which `build_model`'s eager objective construction does not
fault. -/
def IntensOK (p : Params) : Prop :=
  ∀ r ∈ p.routes,
    (p.iron_ore_t r).isSome = true ∧ (p.coking_coal_t r).isSome = true ∧
    (p.ng_GJ r).isSome = true ∧ (p.electricity_MWh r).isSome = true ∧
    (p.h2_kg r).isSome = true ∧ (p.fluxes_t r).isSome = true ∧
    (p.alloys_USD r).isSome = true

/-- Aggregate net emissions reported by `extract_solution`:
`sum(Q[r,y] * ef_net[r])`. -/
def emissionsOut (p : Params) (k : Knobs) (sol : Sol) (year : Int) : ℚ :=
  (p.routes.map (fun r => sol.Q r year * ef_net p k.ccus_capture_rate r)).sum

/-- ETS cost reported by `extract_solution`:
`ETSpos[y] * 1e6 * carbon_price[y]`. -/
def etsCostOut (p : Params) (sol : Sol) (year : Int) : ℚ :=
  sol.ETSpos year * 1000000 * p.carbon_price year

/-- The hardcoded ceiling of `validate_solution`'s check 3:
`utilization_limit = 0.90`. -/
def utilization_limit : ℚ := 9 / 10

/-- Check 3 of `validate_solution`: for every route/year with capacity above
tolerance, the utilization rate may not exceed `utilization_limit` plus
tolerance.  The check raising a hard `ValueError` corresponds to this
proposition being false. -/
def utilCheck3 (production capacity : String → Int → ℚ)
    (routes : List String) (years : List Int) (tolerance : ℚ) : Prop :=
  ∀ r ∈ routes, ∀ y ∈ years,
    tolerance < capacity r y → production r y / capacity r y ≤ utilization_limit + tolerance

/-- Termination conditions of the external Pyomo solver interface
(`pyomo.opt.TerminationCondition`, representative members). -/
inductive TerminationCondition
  | optimal
  | infeasible
  | unbounded
  | error
  | maxTimeLimit
  | maxIterations
  | infeasibleOrUnbounded
  | unknown
  | solverFailure
deriving DecidableEq

/-- Python's `str(results.solver.termination_condition)`. -/
def TerminationCondition.asStr : TerminationCondition → String
  | .optimal => "optimal"
  | .infeasible => "infeasible"
  | .unbounded => "unbounded"
  | .error => "error"
  | .maxTimeLimit => "maxTimeLimit"
  | .maxIterations => "maxIterations"
  | .infeasibleOrUnbounded => "infeasibleOrUnbounded"
  | .unknown => "unknown"
  | .solverFailure => "solverFailure"

/-- Python float values as returned by `solve_model`: a finite value or
`float('inf')`. -/
inductive PyFloat
  | val (q : ℚ)
  | inf
deriving DecidableEq

/-- The status/objective pair returned by `solve_model`, as a function of the
solver's termination condition and of the (scaled) objective value at the
solver's incumbent: `status = str(termination_condition)`, and
`obj_val = value(objective)/OBJ_SCALE if optimal else float('inf')`. -/
def solve_model (tc : TerminationCondition) (objScaled : ℚ) : String × PyFloat :=
  (tc.asStr, if tc = TerminationCondition.optimal then PyFloat.val (objScaled / OBJ_SCALE) else PyFloat.inf)

/-- Per-scenario status recorded by `run_single_scenario`: `'SUCCESS'` on an
optimal solve, otherwise the solver status itself is stored (lines 72-79 and
154 of `scenarios.py`). -/
def scenario_status (solver_status : String) : String :=
  if solver_status = "optimal" then "SUCCESS" else solver_status

/-- The `run_summary` dictionary assembled by `run_all_scenarios` from the
per-scenario status strings. -/
structure RunSummary where
  total_scenarios : ℕ
  successful_scenarios : ℕ
  failed_scenarios : ℕ

/-- Build the `run_summary` from the list of per-scenario statuses:
`successful_scenarios` counts the `'SUCCESS'` entries. -/
def run_summary_of (statuses : List String) : RunSummary :=
  { total_scenarios := statuses.length
    successful_scenarios := (statuses.filter (fun s => s = "SUCCESS")).length
    failed_scenarios := statuses.length - (statuses.filter (fun s => s = "SUCCESS")).length }

/-- Exit code of the multi-scenario CLI (`run.py` line 221, `scenarios.py`
line 492): `0 if run_summary['successful_scenarios'] > 0 else 1`. -/
def multi_scenario_exit_code (rs : RunSummary) : ℕ :=
  if 0 < rs.successful_scenarios then 0 else 1

/-- A minimal degenerate parameter bundle: one route `"X"`, one year, zero
demand, prices and costs; every intensity recorded as zero. -/
def zeroParams : Params where
  routes := ["X"]
  years := [2025]
  t0 := 2025
  unit_capacity := fun _ => 1
  capex := fun _ => 0
  fixed_opex := fun _ => 0
  ef_scope1 := fun _ => 0
  iron_ore_t := fun _ => some 0
  coking_coal_t := fun _ => some 0
  scrap_t := fun _ => some 0
  ng_GJ := fun _ => some 0
  electricity_MWh := fun _ => some 0
  h2_kg := fun _ => some 0
  fluxes_t := fun _ => some 0
  alloys_USD := fun _ => some 0
  demand := fun _ => 0
  carbon_price := fun _ => 0
  free_alloc := fun _ => 0
  scrap_supply := fun _ => 0
  price_fn := fun _ _ => 0
  hydrogen_case := "baseline"

/-- Neutral knobs: no discounting, full utilization, no capture. -/
def kZero : Knobs := ⟨0, 1, 0⟩

/-- The all-zero assignment. -/
def solZero : Sol := ⟨fun _ _ => 0, fun _ _ => 0, fun _ _ => 0, fun _ => 0⟩

/-- Degenerate bundle with a strictly positive carbon price. -/
def pPrice : Params := { zeroParams with carbon_price := fun _ => 5 }

/-- Degenerate bundle with zero carbon price (used for the zero-coefficient
analysis); identical to `zeroParams`. -/
def pFree : Params := zeroParams

/-- Assignment equal to `solZero` except that the ETS variable is slack at 1. -/
def solSlack : Sol := { solZero with ETSpos := fun _ => 1 }

/-- Degenerate bundle with unit demand (forces production). -/
def pUnit : Params := { zeroParams with demand := fun _ => 1 }

/-- Assignment producing at 100% of capacity: one build unit, capacity 1,
production 1. -/
def solFull : Sol := ⟨fun _ _ => 1, fun _ _ => 1, fun _ _ => 1, fun _ => 0⟩

/-- Bundle whose iron-ore intensity table has no entry for route `"X"`. -/
def pNoIron : Params := { zeroParams with iron_ore_t := fun _ => none }

/-- Bundle whose scrap intensity table has no entry for any route, while the
seven other intensity kinds are all recorded. -/
def pNoScrap : Params := { zeroParams with scrap_t := fun _ => none }

/-- Replace the ETS variable's value at one year, keeping everything else:
the exchange step of the positive-part optimality argument. -/
def updateETS (sol : Sol) (y : Int) (v : ℚ) : Sol :=
  { sol with ETSpos := fun z => if z = y then v else sol.ETSpos z }

/-- A three-route, two-year demonstration bundle: an incumbent blast-furnace
route, a hydrogen route, and a capture-equipped variant. -/
def pDemo : Params where
  routes := ["BF-BOF", "H2-DRI", "BF-BOF-CCUS"]
  years := [2025, 2026]
  t0 := 2025
  unit_capacity := fun r => if r = "BF-BOF" then 5 else 2
  capex := fun r => if r = "BF-BOF" then 1000 else 3000
  fixed_opex := fun r => if r = "BF-BOF" then 100 else 200
  ef_scope1 := fun r => if r = "H2-DRI" then 1 / 10 else 2
  iron_ore_t := fun _ => some (3 / 2)
  coking_coal_t := fun _ => some 0
  scrap_t := fun _ => some 0
  ng_GJ := fun _ => some 0
  electricity_MWh := fun _ => some 0
  h2_kg := fun _ => some 0
  fluxes_t := fun _ => some 0
  alloys_USD := fun _ => some 0
  demand := fun _ => 10
  carbon_price := fun _ => 5
  free_alloc := fun _ => 0
  scrap_supply := fun _ => 0
  price_fn := fun _ _ => 100
  hydrogen_case := "baseline"

/-- Demonstration knobs: 5% discounting, 90% utilization, 80% capture. -/
def kDemo : Knobs := ⟨1 / 20, 9 / 10, 4 / 5⟩

/-- A feasible assignment for `pDemo`/`kDemo`: the incumbent route carries all
demand; one build unit in the first year tops its endowed capacity up to 16. -/
def solDemo : Sol where
  Q := fun r _ => if r = "BF-BOF" then 10 else 0
  K := fun r _ => if r = "BF-BOF" then 16 else 0
  Build := fun r y => if r = "BF-BOF" && decide (y = 2025) then 1 else 0
  ETSpos := fun _ => 20

/-! ### Supporting lemmas -/

theorem sum_map_congr {α : Type} (l : List α) (f g : α → ℚ)
    (h : ∀ a ∈ l, f a = g a) : (l.map f).sum = (l.map g).sum := by
  induction l with
  | nil => rfl
  | cons a t ih =>
    simp only [List.map_cons, List.sum_cons]
    rw [h a (List.mem_cons_self a t), ih (fun b hb => h b (List.mem_cons_of_mem a hb))]

theorem sum_map_update (l : List Int) (f g : Int → ℚ) (y : Int)
    (hnd : l.Nodup) (hy : y ∈ l) (h : ∀ z ∈ l, z ≠ y → f z = g z) :
    (l.map f).sum = (l.map g).sum + (f y - g y) := by
  induction l with
  | nil => cases hy
  | cons a t ih =>
    rcases List.mem_cons.mp hy with rfl | hyt
    · have hnot : y ∉ t := (List.nodup_cons.mp hnd).1
      have ht : ∀ z ∈ t, f z = g z := by
        intro z hz
        apply h z (List.mem_cons_of_mem y hz)
        intro hzy
        exact hnot (by rwa [hzy] at hz)
      simp only [List.map_cons, List.sum_cons]
      rw [sum_map_congr t f g ht]
      ring
    · have hay : a ≠ y := by
        intro hay
        exact (List.nodup_cons.mp hnd).1 (by rwa [hay])
      have ha := h a (List.mem_cons_self a t) hay
      simp only [List.map_cons, List.sum_cons]
      rw [ha, ih (List.nodup_cons.mp hnd).2 hyt
        (fun z hz hzy => h z (List.mem_cons_of_mem a hz) hzy)]
      ring

theorem sum_map_mul_comm {α : Type} (l : List α) (f g : α → ℚ) :
    (l.map (fun a => f a * g a)).sum = (l.map (fun a => g a * f a)).sum := by
  induction l with
  | nil => rfl
  | cons a t ih => simp only [List.map_cons, List.sum_cons, ih, mul_comm]

theorem foldl_min_of_le (l : List Int) (a : Int) (h : ∀ z ∈ l, a ≤ z) :
    l.foldl min a = a := by
  induction l generalizing a with
  | nil => rfl
  | cons b t ih =>
    simp only [List.foldl_cons]
    rw [min_eq_left (h b (List.mem_cons_self b t))]
    exact ih a (fun z hz => h z (List.mem_cons_of_mem b hz))

theorem minYear_of_sorted (l : List Int) (hs : l.Chain' (· < ·)) (h0 : 0 < l.length) :
    minYear l = l.get ⟨0, h0⟩ := by
  cases l with
  | nil => simp at h0
  | cons a t =>
    have hp : (a :: t).Pairwise (· < ·) := List.chain'_iff_pairwise.mp hs
    exact foldl_min_of_le t a (fun z hz => ((List.pairwise_cons.mp hp).1 z hz).le)

theorem prevYear_get_sorted :
    ∀ (l : List Int), l.Pairwise (· < ·) →
      ∀ (i : ℕ) (h : i + 1 < l.length),
        prevYear l (l.get ⟨i + 1, h⟩) = l.get ⟨i, Nat.lt_of_succ_lt h⟩ := by
  intro l
  induction l with
  | nil => intro _ i h; simp at h
  | cons a t ih =>
    intro hp i h
    cases t with
    | nil => simp at h
    | cons b u =>
      cases i with
      | zero => simp [prevYear]
      | succ j =>
        have hj : j + 1 < (b :: u).length := by
          simpa using h
        have hpt : (b :: u).Pairwise (· < ·) := (List.pairwise_cons.mp hp).2
        have hlt : b < (b :: u).get ⟨j + 1, hj⟩ :=
          List.pairwise_iff_get.mp hpt ⟨0, by omega⟩ ⟨j + 1, hj⟩
            (Fin.mk_lt_mk.mpr (Nat.succ_pos j))
        have hne : b ≠ (b :: u).get ⟨j + 1, hj⟩ := ne_of_lt hlt
        show prevYear (a :: b :: u) ((b :: u).get ⟨j + 1, hj⟩) = (b :: u).get ⟨j, _⟩
        rw [prevYear, if_neg (fun hbe => hne hbe)]
        exact ih hpt j hj

theorem get_ne_minYear (l : List Int) (hs : l.Chain' (· < ·)) (i : ℕ)
    (h : i + 1 < l.length) : l.get ⟨i + 1, h⟩ ≠ minYear l := by
  have h0 : 0 < l.length := by omega
  rw [minYear_of_sorted l hs h0]
  have hp := List.chain'_iff_pairwise.mp hs
  exact ne_of_gt (List.pairwise_iff_get.mp hp ⟨0, h0⟩ ⟨i + 1, h⟩
    (Fin.mk_lt_mk.mpr (Nat.succ_pos i)))

theorem updateETS_self (sol : Sol) (y : Int) (v : ℚ) :
    (updateETS sol y v).ETSpos y = v := if_pos rfl

theorem updateETS_ne (sol : Sol) (y : Int) (v : ℚ) (z : Int) (h : z ≠ y) :
    (updateETS sol y v).ETSpos z = sol.ETSpos z := if_neg h

theorem capexT_updateETS (p : Params) (sol : Sol) (y : Int) (v : ℚ) (z : Int) :
    capexT p (updateETS sol y v) z = capexT p sol z := rfl

theorem fixomT_updateETS (p : Params) (sol : Sol) (y : Int) (v : ℚ) (z : Int) :
    fixomT p (updateETS sol y v) z = fixomT p sol z := rfl

theorem varT_updateETS (p : Params) (sol : Sol) (y : Int) (v : ℚ) (z : Int) :
    varT p (updateETS sol y v) z = varT p sol z := rfl

/-! ### Concrete feasible points -/

theorem feasDemo : Feasible pDemo kDemo solDemo := by
  refine ⟨?_, ?_, ?_, ?_, ?_, ?_, ?_, ?_, ?_⟩
  · decide
  · decide
  · decide
  · intro y hy
    fin_cases hy <;> simp +decide [demand_rule, pDemo, solDemo]
  · intro r hr y hy
    fin_cases hr <;> fin_cases hy <;>
      simp +decide [capacity_rule, pDemo, solDemo, minYear, prevYear] <;> norm_num
  · intro r hr y hy
    fin_cases hr <;> fin_cases hy <;>
      simp +decide [utilization_rule, pDemo, solDemo, kDemo] <;> norm_num
  · intro y hy
    fin_cases hy <;> simp +decide [scrap_limit_rule, pDemo, solDemo, scrapInit]
  · intro y hy
    fin_cases hy <;>
      simp +decide [ets_balance_rule, pDemo, solDemo, kDemo, ef_net, ccusRoutes] <;> norm_num
  · decide

theorem feasPrice : Feasible pPrice kZero solZero := by
  refine ⟨?_, ?_, ?_, ?_, ?_, ?_, ?_, ?_, ?_⟩
  · decide
  · decide
  · decide
  · intro y hy
    fin_cases hy <;> simp +decide [demand_rule, pPrice, zeroParams, solZero]
  · intro r hr y hy
    fin_cases hr <;> fin_cases hy <;>
      simp +decide [capacity_rule, pPrice, zeroParams, solZero, minYear, prevYear]
  · intro r hr y hy
    fin_cases hr <;> fin_cases hy <;>
      simp +decide [utilization_rule, pPrice, zeroParams, solZero, kZero]
  · intro y hy
    fin_cases hy <;> simp +decide [scrap_limit_rule, pPrice, zeroParams, solZero, scrapInit]
  · intro y hy
    fin_cases hy <;>
      simp +decide [ets_balance_rule, pPrice, zeroParams, solZero, kZero, ef_net, ccusRoutes]
  · decide

theorem feasSlack : Feasible pFree kZero solSlack := by
  refine ⟨?_, ?_, ?_, ?_, ?_, ?_, ?_, ?_, ?_⟩
  · decide
  · decide
  · decide
  · intro y hy
    fin_cases hy <;> simp +decide [demand_rule, pFree, zeroParams, solSlack, solZero]
  · intro r hr y hy
    fin_cases hr <;> fin_cases hy <;>
      simp +decide [capacity_rule, pFree, zeroParams, solSlack, solZero, minYear, prevYear]
  · intro r hr y hy
    fin_cases hr <;> fin_cases hy <;>
      simp +decide [utilization_rule, pFree, zeroParams, solSlack, solZero, kZero]
  · intro y hy
    fin_cases hy <;>
      simp +decide [scrap_limit_rule, pFree, zeroParams, solSlack, solZero, scrapInit]
  · intro y hy
    fin_cases hy <;>
      simp +decide [ets_balance_rule, pFree, zeroParams, solSlack, solZero, kZero, ef_net,
        ccusRoutes]
  · decide

theorem feasUnit : Feasible pUnit kZero solFull := by
  refine ⟨?_, ?_, ?_, ?_, ?_, ?_, ?_, ?_, ?_⟩
  · decide
  · decide
  · decide
  · intro y hy
    fin_cases hy <;> simp +decide [demand_rule, pUnit, zeroParams, solFull]
  · intro r hr y hy
    fin_cases hr <;> fin_cases hy <;>
      simp +decide [capacity_rule, pUnit, zeroParams, solFull, minYear, prevYear]
  · intro r hr y hy
    fin_cases hr <;> fin_cases hy <;>
      simp +decide [utilization_rule, pUnit, zeroParams, solFull, kZero]
  · intro y hy
    fin_cases hy <;> simp +decide [scrap_limit_rule, pUnit, zeroParams, solFull, scrapInit]
  · intro y hy
    fin_cases hy <;>
      simp +decide [ets_balance_rule, pUnit, zeroParams, solFull, kZero, ef_net, ccusRoutes]
  · decide

/-! ### Optimality of the degenerate instances -/

theorem objVal_pFree (s : Sol) : objectiveVal pFree kZero s = 0 := by
  simp [objectiveVal, yearCost, capexT, fixomT, varT, etsT, usdPerT, scrapInit,
    discount_factor, pFree, zeroParams, kZero, OBJ_SCALE]

theorem optFree : Optimal pFree kZero solSlack := by
  refine ⟨feasSlack, ?_⟩
  intro s' _
  rw [objVal_pFree, objVal_pFree]

theorem objVal_pPrice (s : Sol) :
    objectiveVal pPrice kZero s = s.ETSpos 2025 * (1 / 200) := by
  simp [objectiveVal, yearCost, capexT, fixomT, varT, etsT, usdPerT, scrapInit,
    discount_factor, pPrice, zeroParams, kZero, OBJ_SCALE]
  ring

theorem optPrice : Optimal pPrice kZero solZero := by
  refine ⟨feasPrice, ?_⟩
  intro s' hf'
  rw [objVal_pPrice, objVal_pPrice]
  have h0 : 0 ≤ s'.ETSpos 2025 := hf'.etspos_nonneg 2025 (by decide)
  simp [solZero]
  linarith

/-! ### Bridging the faulting and the total objective evaluation -/

theorem osum_eq_sum {α : Type} (l : List α) (f : α → Option ℚ) (g : α → ℚ)
    (h : ∀ a ∈ l, f a = some (g a)) : osum l f = some ((l.map g).sum) := by
  induction l with
  | nil => rfl
  | cons a t ih =>
    have ha := h a (List.mem_cons_self a t)
    have ht := ih (fun b hb => h b (List.mem_cons_of_mem a hb))
    simp only [osum, List.foldr_cons] at ht ⊢
    rw [ha, ht]
    simp

theorem usdPerT_eq_of_defined (p : Params) (r : String) (y : Int)
    (h1 : (p.iron_ore_t r).isSome = true) (h2 : (p.coking_coal_t r).isSome = true)
    (h3 : (p.ng_GJ r).isSome = true) (h4 : (p.electricity_MWh r).isSome = true)
    (h5 : (p.h2_kg r).isSome = true) (h6 : (p.fluxes_t r).isSome = true)
    (h7 : (p.alloys_USD r).isSome = true) :
    usdPerT? p r y = some (usdPerT p r y) := by
  obtain ⟨io, hio⟩ := Option.isSome_iff_exists.mp h1
  obtain ⟨ck, hck⟩ := Option.isSome_iff_exists.mp h2
  obtain ⟨ng, hng⟩ := Option.isSome_iff_exists.mp h3
  obtain ⟨el, hel⟩ := Option.isSome_iff_exists.mp h4
  obtain ⟨hh, hhh⟩ := Option.isSome_iff_exists.mp h5
  obtain ⟨fx, hfx⟩ := Option.isSome_iff_exists.mp h6
  obtain ⟨al, hal⟩ := Option.isSome_iff_exists.mp h7
  simp [usdPerT?, usdPerT, hio, hck, hng, hel, hhh, hfx, hal]

theorem objective_eq_of_defined (p : Params) (k : Knobs) (sol : Sol) (h : IntensOK p) :
    objective? p k sol = some (objectiveVal p k sol) := by
  have hv : ∀ y : Int, varT? p sol y = some (varT p sol y) := by
    intro y
    apply osum_eq_sum
    intro r hr
    obtain ⟨h1, h2, h3, h4, h5, h6, h7⟩ := h r hr
    rw [usdPerT_eq_of_defined p r y h1 h2 h3 h4 h5 h6 h7]
    rfl
  have hyc : ∀ y : Int, yearCost? p k sol y = some (yearCost p k sol y) := by
    intro y
    unfold yearCost? yearCost
    rw [hv y]
    rfl
  unfold objective? objectiveVal
  rw [osum_eq_sum p.years _ _ (fun y _ => hyc y)]
  rfl

theorem yearsDemo_sorted : pDemo.years.Chain' (· < ·) := by
  show List.Chain' (· < ·) [2025, 2026]
  norm_num [List.chain'_cons, List.chain'_singleton]

/-! ### Claim theorems -/

/-- C2: the built model imposes the demand balance as an equality: in every
feasible solution, for every year of the horizon, summed production across
all routes equals that year's demand exactly — the model can neither
under-supply nor over-supply demand. -/
theorem demand_balance_exact (p : Params) (k : Knobs) (sol : Sol)
    (hf : Feasible p k sol) (y : Int) (hy : y ∈ p.years) :
    (p.routes.map (fun r => sol.Q r y)).sum = p.demand y :=
  hf.demand_ok y hy

/-- Witness for C2: the demand balance, instantiated at the concrete
demonstration instance. -/
theorem demand_balance_exact_witness :
    Feasible pDemo kDemo solDemo ∧
      (pDemo.routes.map (fun r => solDemo.Q r 2025)).sum = pDemo.demand 2025 :=
  ⟨feasDemo, demand_balance_exact pDemo kDemo solDemo feasDemo 2025 (by decide)⟩

/-- C3: in every feasible solution over a strictly increasing horizon,
first-year capacity equals unit capacity times first-year builds, except that
an incumbent route (containing `BF-BOF` but not `CCUS`) additionally starts
from an endowment of 1.1 times first-year demand; and each later year's
capacity equals the previous year's capacity plus unit capacity times that
year's builds. -/
theorem capacity_accumulation (p : Params) (k : Knobs) (sol : Sol)
    (hs : p.years.Chain' (· < ·)) (hf : Feasible p k sol)
    (r : String) (hr : r ∈ p.routes) :
    (∀ h0 : 0 < p.years.length,
      (isIncumbent r = true →
        sol.K r (p.years.get ⟨0, h0⟩) =
          p.demand (p.years.get ⟨0, h0⟩) * (11 / 10)
            + p.unit_capacity r * (sol.Build r (p.years.get ⟨0, h0⟩) : ℚ)) ∧
      (isIncumbent r = false →
        sol.K r (p.years.get ⟨0, h0⟩) =
          p.unit_capacity r * (sol.Build r (p.years.get ⟨0, h0⟩) : ℚ))) ∧
    (∀ (i : ℕ) (h : i + 1 < p.years.length),
      sol.K r (p.years.get ⟨i + 1, h⟩) =
        sol.K r (p.years.get ⟨i, Nat.lt_of_succ_lt h⟩)
          + p.unit_capacity r * (sol.Build r (p.years.get ⟨i + 1, h⟩) : ℚ)) := by
  constructor
  · intro h0
    have hmem : p.years.get ⟨0, h0⟩ ∈ p.years := List.get_mem _ _ _
    have hcap := hf.capacity_ok r hr _ hmem
    have hmin : p.years.get ⟨0, h0⟩ = minYear p.years :=
      (minYear_of_sorted p.years hs h0).symm
    simp only [capacity_rule] at hcap
    rw [if_pos hmin] at hcap
    constructor
    · intro hinc
      rw [hinc] at hcap
      simpa using hcap
    · intro hinc
      rw [hinc] at hcap
      simpa using hcap
  · intro i h
    have hmem : p.years.get ⟨i + 1, h⟩ ∈ p.years := List.get_mem _ _ _
    have hcap := hf.capacity_ok r hr _ hmem
    simp only [capacity_rule] at hcap
    rw [if_neg (get_ne_minYear p.years hs i h)] at hcap
    rw [prevYear_get_sorted p.years (List.chain'_iff_pairwise.mp hs) i h] at hcap
    exact hcap

/-- Witness for C3: at the demonstration instance, the incumbent route's
first-year capacity carries the 110% endowment, and its second-year capacity
accumulates on the first. -/
theorem capacity_accumulation_witness :
    pDemo.years.Chain' (· < ·) ∧ "BF-BOF" ∈ pDemo.routes ∧
      solDemo.K "BF-BOF" 2025 =
        pDemo.demand 2025 * (11 / 10)
          + pDemo.unit_capacity "BF-BOF" * (solDemo.Build "BF-BOF" 2025 : ℚ) ∧
      solDemo.K "BF-BOF" 2026 =
        solDemo.K "BF-BOF" 2025
          + pDemo.unit_capacity "BF-BOF" * (solDemo.Build "BF-BOF" 2026 : ℚ) := by
  have h := capacity_accumulation pDemo kDemo solDemo yearsDemo_sorted feasDemo "BF-BOF"
    (by decide)
  refine ⟨yearsDemo_sorted, by decide, ?_, ?_⟩
  · have h1 := (h.1 (by decide)).1 (by decide)
    simpa using h1
  · have h2 := h.2 0 (by decide)
    simpa using h2

/-- C4 counterexample: with the utilization knob set to 1, an assignment
producing at 100% of capacity is feasible for the built model and respects
the knob's ceiling within tolerance, yet check 3 of `validate_solution`
raises a hard error for it, because the validator compares against the
hardcoded constant 0.90 rather than against the knob. -/
theorem utilization_validator_counterexample :
    Feasible pUnit kZero solFull ∧
      solFull.Q "X" 2025 / solFull.K "X" 2025 ≤ kZero.utilization + 1 / 1000000 ∧
      ¬ utilCheck3 solFull.Q solFull.K pUnit.routes pUnit.years (1 / 1000000) := by
  refine ⟨feasUnit, by norm_num [solFull, kZero], ?_⟩
  intro hchk
  have h := hchk "X" (by decide) 2025 (by decide) (by norm_num [solFull])
  norm_num [solFull, utilization_limit] at h

/-- C4 (amended): every feasible solution respects the utilization ceiling
`Q ≤ utilization * K`; and when the model is built with the knob at 0.90 —
the only value matching the validator's hardcoded `utilization_limit` —
check 3 of `validate_solution` passes on every feasible solution, for any
nonnegative tolerance. -/
theorem utilization_bound_and_validator (p : Params) (k : Knobs) (sol : Sol)
    (hf : Feasible p k sol) (tol : ℚ) (htol : 0 ≤ tol) (hk : k.utilization = 9 / 10) :
    (∀ r ∈ p.routes, ∀ y ∈ p.years, sol.Q r y ≤ k.utilization * sol.K r y) ∧
      utilCheck3 sol.Q sol.K p.routes p.years tol := by
  constructor
  · intro r hr y hy
    exact hf.util_ok r hr y hy
  · intro r hr y hy hcap
    have hK : 0 < sol.K r y := lt_of_le_of_lt htol hcap
    have hQ : sol.Q r y ≤ 9 / 10 * sol.K r y := by
      have h := hf.util_ok r hr y hy
      simp only [utilization_rule] at h
      rwa [hk] at h
    rw [div_le_iff₀ hK]
    unfold utilization_limit
    nlinarith [mul_nonneg htol hK.le]

/-- Witness for C4 (amended): the validator's check passes at the
demonstration instance, whose knob is 0.90. -/
theorem utilization_bound_and_validator_witness :
    Feasible pDemo kDemo solDemo ∧ (0 : ℚ) ≤ 1 / 1000000 ∧ kDemo.utilization = 9 / 10 ∧
      utilCheck3 solDemo.Q solDemo.K pDemo.routes pDemo.years (1 / 1000000) :=
  ⟨feasDemo, by norm_num, by norm_num [kDemo],
    (utilization_bound_and_validator pDemo kDemo solDemo feasDemo (1 / 1000000)
      (by norm_num) (by norm_num [kDemo])).2⟩

/-- C5: in every feasible solution over a strictly increasing horizon, for a
route with nonnegative unit capacity, capacity is monotonically
non-decreasing along consecutive years — build counts are nonnegative
integers, so no decommissioning can occur. -/
theorem capacity_monotone (p : Params) (k : Knobs) (sol : Sol)
    (hs : p.years.Chain' (· < ·)) (hf : Feasible p k sol)
    (r : String) (hr : r ∈ p.routes) (hu : 0 ≤ p.unit_capacity r) :
    p.years.Chain' (fun a b => sol.K r a ≤ sol.K r b) := by
  rw [List.chain'_iff_get]
  intro i h
  have h1 : i + 1 < p.years.length := by omega
  have hmem : p.years.get ⟨i + 1, h1⟩ ∈ p.years := List.get_mem _ _ _
  have hcap := hf.capacity_ok r hr _ hmem
  simp only [capacity_rule] at hcap
  rw [if_neg (get_ne_minYear p.years hs i h1)] at hcap
  rw [prevYear_get_sorted p.years (List.chain'_iff_pairwise.mp hs) i h1] at hcap
  have hb : (0 : ℚ) ≤ p.unit_capacity r * (sol.Build r (p.years.get ⟨i + 1, h1⟩) : ℚ) :=
    mul_nonneg hu (Nat.cast_nonneg _)
  rw [hcap]
  linarith

/-- Witness for C5: monotone capacity at the demonstration instance. -/
theorem capacity_monotone_witness :
    pDemo.years.Chain' (· < ·) ∧ "BF-BOF" ∈ pDemo.routes ∧
      (0 : ℚ) ≤ pDemo.unit_capacity "BF-BOF" ∧
      pDemo.years.Chain' (fun a b => solDemo.K "BF-BOF" a ≤ solDemo.K "BF-BOF" b) :=
  ⟨yearsDemo_sorted, by decide, by decide,
    capacity_monotone pDemo kDemo solDemo yearsDemo_sorted feasDemo "BF-BOF" (by decide)
      (by decide)⟩

/-- C6: the net emission factor equals `gross * (1 - ccus_capture_rate)` for
capture-equipped routes (identifier containing `CCUS`) and equals the gross
factor unchanged otherwise, for every capture rate; in particular, at rate 0 a
capture-equipped route's net factor equals its gross factor exactly, at rate
0.8 it equals 0.2 times gross, and a non-equipped route is unaffected even at
rate 1. -/
theorem ef_net_capture (p : Params) (c : ℚ) (r : String) (hr : r ∈ p.routes) :
    (strContains r "CCUS" = true → ef_net p c r = p.ef_scope1 r * (1 - c)) ∧
    (strContains r "CCUS" = false → ef_net p c r = p.ef_scope1 r) ∧
    (strContains r "CCUS" = true → ef_net p 0 r = p.ef_scope1 r) ∧
    (strContains r "CCUS" = true → ef_net p (4 / 5) r = p.ef_scope1 r * (1 / 5)) ∧
    (strContains r "CCUS" = false → ef_net p 1 r = p.ef_scope1 r) := by
  have hin : ∀ c', strContains r "CCUS" = true → ef_net p c' r = p.ef_scope1 r * (1 - c') := by
    intro c' hc
    unfold ef_net ccusRoutes
    rw [if_pos (List.mem_filter.mpr ⟨hr, hc⟩)]
  have hout : ∀ c', strContains r "CCUS" = false → ef_net p c' r = p.ef_scope1 r := by
    intro c' hc
    unfold ef_net ccusRoutes
    rw [if_neg]
    intro hmem
    have h := (List.mem_filter.mp hmem).2
    rw [hc] at h
    simp at h
  refine ⟨hin c, hout c, ?_, ?_, hout 1⟩
  · intro hc
    rw [hin 0 hc]
    ring
  · intro hc
    rw [hin (4 / 5) hc]
    ring

/-- Witness for C6: the capture-equipped demonstration route at rates 0.8 and
0, and the incumbent (non-equipped) route at rate 1. -/
theorem ef_net_capture_witness :
    "BF-BOF-CCUS" ∈ pDemo.routes ∧ "BF-BOF" ∈ pDemo.routes ∧
      ef_net pDemo (4 / 5) "BF-BOF-CCUS" = pDemo.ef_scope1 "BF-BOF-CCUS" * (1 / 5) ∧
      ef_net pDemo 0 "BF-BOF-CCUS" = pDemo.ef_scope1 "BF-BOF-CCUS" ∧
      ef_net pDemo 1 "BF-BOF" = pDemo.ef_scope1 "BF-BOF" :=
  ⟨by decide, by decide,
    (ef_net_capture pDemo (4 / 5) "BF-BOF-CCUS" (by decide)).2.2.2.1 (by decide),
    (ef_net_capture pDemo (4 / 5) "BF-BOF-CCUS" (by decide)).2.2.1 (by decide),
    (ef_net_capture pDemo 1 "BF-BOF" (by decide)).2.2.2.2 (by decide)⟩

/-- C7 counterexample: a bundle whose iron-ore intensity table lacks an entry
for route `"X"` makes `usd_per_t`, and hence the eagerly constructed
objective expression, fault (Pyomo raises on the undefined `Param` index);
the claim that every missing intensity entry silently defaults to zero is
false for the non-scrap intensity kinds. -/
theorem intensity_fault_counterexample :
    "X" ∈ pNoIron.routes ∧ pNoIron.iron_ore_t "X" = none ∧
      usdPerT? pNoIron "X" 2025 = none ∧
      objective? pNoIron kZero solZero = none := by
  refine ⟨by decide, rfl, rfl, rfl⟩

/-- C7 (amended): only the scrap intensity is totalized with default zero —
a route missing from the scrap table simply does not consume scrap and never
faults; for the seven other kinds, every route needs a recorded entry, and
when those are all present, objective construction and evaluation succeed
regardless of missing scrap entries. -/
theorem intensity_missing_behavior (p : Params) (k : Knobs) (sol : Sol) (r : String)
    (hscrap : p.scrap_t r = none) (h : IntensOK p) :
    scrapInit p r = 0 ∧ (objective? p k sol).isSome = true := by
  constructor
  · simp [scrapInit, hscrap]
  · rw [objective_eq_of_defined p k sol h]
    rfl

/-- Witness for C7 (amended): a concrete bundle with no scrap entry at all but
every other intensity kind recorded. -/
theorem intensity_missing_behavior_witness :
    pNoScrap.scrap_t "X" = none ∧ IntensOK pNoScrap ∧
      scrapInit pNoScrap "X" = 0 ∧ (objective? pNoScrap kZero solZero).isSome = true := by
  have h : IntensOK pNoScrap := by
    intro r hr
    refine ⟨rfl, rfl, rfl, rfl, rfl, rfl, rfl⟩
  have hmain := intensity_missing_behavior pNoScrap kZero solZero "X" rfl h
  exact ⟨rfl, h, hmain.1, hmain.2⟩

/-- C8 counterexample: `solve_model` does not normalize the solver's
termination status to one of optimal/infeasible/unbounded/error — a
`maxTimeLimit` termination is passed through verbatim — and the non-optimal
objective is returned as the numeric value `float('inf')` rather than as a
typed failure. -/
theorem solve_model_counterexample :
    (solve_model TerminationCondition.maxTimeLimit 7).1 = "maxTimeLimit" ∧
      "maxTimeLimit" ∉ (["optimal", "infeasible", "unbounded", "error"] : List String) ∧
      (solve_model TerminationCondition.maxTimeLimit 7).2 = PyFloat.inf :=
  ⟨rfl, by decide, rfl⟩

/-- C8 (amended): `solve_model` returns the stringified termination condition
unnormalized; the status string is `"optimal"` exactly when the condition is
optimal, in which case the returned objective is the properly un-rescaled
value (divided by `OBJ_SCALE`, i.e. multiplied by 1e9), while every
non-optimal condition yields `float('inf')` alongside its status string. -/
theorem solve_model_status (tc : TerminationCondition) (v : ℚ) :
    ((solve_model tc v).1 = "optimal" ↔ tc = TerminationCondition.optimal) ∧
      (tc = TerminationCondition.optimal →
        (solve_model tc v).2 = PyFloat.val (v * 1000000000)) ∧
      (tc ≠ TerminationCondition.optimal → (solve_model tc v).2 = PyFloat.inf) := by
  refine ⟨?_, ?_, ?_⟩
  · cases tc <;> simp +decide [solve_model, TerminationCondition.asStr]
  · intro h
    subst h
    simp only [solve_model, if_pos rfl]
    rw [OBJ_SCALE, one_div, div_inv_eq_mul]
    simp
  · intro h
    simp [solve_model, h]

/-- Witness for C8 (amended): an optimal termination with scaled objective 3
returns the un-rescaled value 3e9. -/
theorem solve_model_status_witness :
    (solve_model TerminationCondition.optimal 3).2 = PyFloat.val (3 * 1000000000) :=
  (solve_model_status TerminationCondition.optimal 3).2.1 rfl

/-- C9 counterexample: a two-scenario batch in which one scenario solves to
optimal and the other is infeasible still exits with code 0 — the CLI only
requires at least one success (`successful_scenarios > 0`), not full
success. -/
theorem cli_exit_counterexample :
    scenario_status "infeasible" ≠ "SUCCESS" ∧
      multi_scenario_exit_code
        (run_summary_of [scenario_status "optimal", scenario_status "infeasible"]) = 0 :=
  ⟨by decide, by decide⟩

/-- C9 (amended): the multi-scenario CLI exits with code 0 exactly when at
least one requested scenario succeeds, and with code 1 otherwise; a batch
with some failures among at least one success still exits 0. -/
theorem cli_exit_iff (statuses : List String) :
    (multi_scenario_exit_code (run_summary_of statuses) = 0 ↔
      ∃ s ∈ statuses, s = "SUCCESS") ∧
      (multi_scenario_exit_code (run_summary_of statuses) = 0 ∨
        multi_scenario_exit_code (run_summary_of statuses) = 1) := by
  have hfilter : 0 < (statuses.filter (fun s => s = "SUCCESS")).length ↔
      ∃ s ∈ statuses, s = "SUCCESS" := by
    rw [List.length_pos_iff_exists_mem]
    constructor
    · rintro ⟨a, ha⟩
      have h := List.mem_filter.mp ha
      exact ⟨a, h.1, by simpa using h.2⟩
    · rintro ⟨a, ha, rfl⟩
      exact ⟨"SUCCESS", List.mem_filter.mpr ⟨ha, by simp⟩⟩
  unfold multi_scenario_exit_code run_summary_of
  by_cases hpos : 0 < (statuses.filter (fun s => s = "SUCCESS")).length
  · rw [if_pos hpos]
    exact ⟨⟨fun _ => hfilter.mp hpos, fun _ => rfl⟩, Or.inl rfl⟩
  · rw [if_neg hpos]
    exact ⟨⟨fun h => absurd h one_ne_zero, fun hex => absurd (hfilter.mpr hex) hpos⟩,
      Or.inr rfl⟩

/-! ### The ETS positive-part linearization at optimality -/

theorem feasible_updateETS (p : Params) (k : Knobs) (sol : Sol) (hf : Feasible p k sol)
    (y : Int) (v : ℚ) (hv : 0 ≤ v)
    (hbal : (p.routes.map (fun r => ef_net p k.ccus_capture_rate r * sol.Q r y)).sum
        - p.free_alloc y ≤ v) :
    Feasible p k (updateETS sol y v) := by
  refine ⟨hf.q_nonneg, hf.k_nonneg, ?_, hf.demand_ok, hf.capacity_ok, hf.util_ok,
    hf.scrap_ok, ?_, hf.h2_ok⟩
  · intro z hz
    by_cases hzy : z = y
    · subst hzy
      rw [updateETS_self]
      exact hv
    · rw [updateETS_ne sol y v z hzy]
      exact hf.etspos_nonneg z hz
  · intro z hz
    simp only [ets_balance_rule]
    by_cases hzy : z = y
    · subst hzy
      rw [updateETS_self]
      exact hbal
    · rw [updateETS_ne sol y v z hzy]
      exact hf.ets_ok z hz

theorem yearCost_updateETS_ne (p : Params) (k : Knobs) (sol : Sol) (y : Int) (v : ℚ)
    (z : Int) (hzy : z ≠ y) :
    yearCost p k (updateETS sol y v) z = yearCost p k sol z := by
  unfold yearCost etsT
  rw [capexT_updateETS, fixomT_updateETS, varT_updateETS, updateETS_ne sol y v z hzy]

theorem yearCost_updateETS_self (p : Params) (k : Knobs) (sol : Sol) (y : Int) (v : ℚ) :
    yearCost p k (updateETS sol y v) y - yearCost p k sol y
      = discount_factor k p.t0 y * (p.carbon_price y * (v - sol.ETSpos y) * 1000000) := by
  unfold yearCost etsT
  rw [capexT_updateETS, fixomT_updateETS, varT_updateETS, updateETS_self]
  ring

/-- C1: in the built model the ETS variable is constrained only by
`ETSpos[y] >= net_emissions[y] - free_alloc[y]` and `ETSpos[y] >= 0` and is
charged at `carbon_price[y]` in the minimized objective, so at every optimal
solution the extracted `ets_cost[y]` equals
`max(0, net_emissions[y] - free_alloc[y]) * carbon_price[y]` scaled by 1e6:
no positive ETS cost when net emissions are within the free allocation, and
never a cost below the emissions gap times the carbon price above it. -/
theorem ets_cost_at_optimum (p : Params) (k : Knobs) (sol : Sol)
    (hnd : p.years.Nodup) (y : Int) (hy : y ∈ p.years)
    (hdr : 0 < 1 + k.discount_rate) (hcp : 0 ≤ p.carbon_price y)
    (hopt : Optimal p k sol) :
    etsCostOut p sol y =
      max 0 (emissionsOut p k sol y - p.free_alloc y) * p.carbon_price y * 1000000 := by
  obtain ⟨hf, hmin⟩ := hopt
  have hcomm : (p.routes.map (fun r => ef_net p k.ccus_capture_rate r * sol.Q r y)).sum
      = emissionsOut p k sol y := by
    unfold emissionsOut
    exact sum_map_mul_comm p.routes _ _
  have hbal : emissionsOut p k sol y - p.free_alloc y ≤ sol.ETSpos y := by
    have h := hf.ets_ok y hy
    simp only [ets_balance_rule] at h
    rwa [hcomm] at h
  have hnn : 0 ≤ sol.ETSpos y := hf.etspos_nonneg y hy
  set m := max 0 (emissionsOut p k sol y - p.free_alloc y) with hm
  have hge : m ≤ sol.ETSpos y := max_le hnn hbal
  rcases hcp.lt_or_eq with hpos | hzero
  · have hts : sol.ETSpos y = m := by
      by_contra hne
      have hlt : m < sol.ETSpos y := lt_of_le_of_ne hge (fun h => hne h.symm)
      have hmnn : 0 ≤ m := le_max_left _ _
      have hfeas' : Feasible p k (updateETS sol y m) :=
        feasible_updateETS p k sol hf y m hmnn (by rw [hcomm]; exact le_max_right _ _)
      have hle := hmin (updateETS sol y m) hfeas'
      have hsum : (p.years.map (yearCost p k (updateETS sol y m))).sum
          = (p.years.map (yearCost p k sol)).sum
            + (yearCost p k (updateETS sol y m) y - yearCost p k sol y) :=
        sum_map_update p.years _ _ y hnd hy
          (fun z _ hzy => yearCost_updateETS_ne p k sol y m z hzy)
      have hdpos : 0 < discount_factor k p.t0 y := by
        unfold discount_factor
        exact one_div_pos.mpr (zpow_pos hdr _)
      have hneg : yearCost p k (updateETS sol y m) y - yearCost p k sol y < 0 := by
        rw [yearCost_updateETS_self p k sol y m]
        have h1 : 0 < discount_factor k p.t0 y * p.carbon_price y * (sol.ETSpos y - m)
            * 1000000 :=
          mul_pos (mul_pos (mul_pos hdpos hpos) (by linarith)) (by norm_num)
        nlinarith [h1]
      have hlt2 : objectiveVal p k (updateETS sol y m) < objectiveVal p k sol := by
        unfold objectiveVal
        rw [hsum]
        have hS : (0 : ℚ) < OBJ_SCALE := by norm_num [OBJ_SCALE]
        nlinarith [hneg, hS]
      linarith
    unfold etsCostOut
    rw [hts]
    ring
  · unfold etsCostOut
    rw [← hzero]
    ring

/-- Witness for C1: the degenerate positive-price instance, whose optimum is
the all-zero assignment; the reported ETS cost matches the positive-part
formula there. -/
theorem ets_cost_at_optimum_witness :
    pPrice.years.Nodup ∧ (2025 : Int) ∈ pPrice.years ∧
      (0 : ℚ) < 1 + kZero.discount_rate ∧ (0 : ℚ) ≤ pPrice.carbon_price 2025 ∧
      Optimal pPrice kZero solZero ∧
      etsCostOut pPrice solZero 2025 =
        max 0 (emissionsOut pPrice kZero solZero 2025 - pPrice.free_alloc 2025)
          * pPrice.carbon_price 2025 * 1000000 :=
  ⟨by decide, by decide, by norm_num [kZero], by norm_num [pPrice, zeroParams], optPrice,
    ets_cost_at_optimum pPrice kZero solZero (by decide) 2025 (by decide)
      (by norm_num [kZero]) (by norm_num [pPrice, zeroParams]) optPrice⟩

/-- C10: with a zero carbon price the ETS variable has zero objective
coefficient, so there are optimal solutions in which `ETSpos` strictly
exceeds the positive part `max(0, net_emissions - free_alloc)`; the extracted
`ets_cost` nonetheless still equals 0 in that year — only the equality of
`ETSpos` itself with the positive part fails, not the cost identity. -/
theorem ets_slack_at_zero_price :
    pFree.carbon_price 2025 = 0 ∧
      Optimal pFree kZero solSlack ∧
      max 0 (emissionsOut pFree kZero solSlack 2025 - pFree.free_alloc 2025)
        < solSlack.ETSpos 2025 ∧
      etsCostOut pFree solSlack 2025 = 0 := by
  refine ⟨rfl, optFree, ?_, ?_⟩
  · norm_num [emissionsOut, pFree, zeroParams, solSlack, solZero, ef_net, ccusRoutes]
  · norm_num [etsCostOut, pFree, zeroParams, solSlack, solZero]
